import Mathlib

/-!
Shallow embedding of the terminal-text-styler crate: the three coded
attribute enumerations (src/src/enums/srg_effect.rs, ansi_foreground.rs,
ansi_background.rs), the style composer `TerminalStyle`
(src/src/terminal_style.rs) and the cached styled-text value
`StyledTerminalText` (src/src/styled_terminal_text.rs). Raw `u8` codes are
modelled as `Nat` (every operation on them is a lookup; none overflows).
-/

namespace TerminalTextStyler

/-- Display effects (`SGREffect` in src/src/enums/srg_effect.rs). -/
inductive SGREffect where
  | Normal
  | Bold
  | Faint
  | Italic
  | Underline
  | SlowBlink
  | RapidBlink
  | CrossedOut
  | ByCode (code : Nat)
deriving DecidableEq, Repr

/-- ANSI escape code of an effect (`SGREffect::code`). -/
def SGREffect.code : SGREffect → Nat
  | SGREffect.Normal => 0
  | SGREffect.Bold => 1
  | SGREffect.Faint => 2
  | SGREffect.Italic => 3
  | SGREffect.Underline => 4
  | SGREffect.SlowBlink => 5
  | SGREffect.RapidBlink => 6
  | SGREffect.CrossedOut => 9
  | SGREffect.ByCode c => c

/-- Decoder from a raw code (`SGREffect::from`; `from` is a Lean keyword). -/
def SGREffect.fromCode : Nat → SGREffect
  | 0 => SGREffect.Normal
  | 1 => SGREffect.Bold
  | 2 => SGREffect.Faint
  | 3 => SGREffect.Italic
  | 4 => SGREffect.Underline
  | 5 => SGREffect.SlowBlink
  | 6 => SGREffect.RapidBlink
  | 9 => SGREffect.CrossedOut
  | c => SGREffect.ByCode c

/-- Equality of effects is code equality (`impl PartialEq for SGREffect`). -/
def SGREffect.beq (a b : SGREffect) : Bool :=
  a.code == b.code

/-- Foreground colors (`ANSIForegroundColor` in src/src/enums/ansi_foreground.rs). -/
inductive ANSIForegroundColor where
  | Black
  | Red
  | Green
  | Yellow
  | Blue
  | Magenta
  | Cyan
  | White
  | BrightBlack
  | BrightRed
  | BrightGreen
  | BrightYellow
  | BrightBlue
  | BrightMagenta
  | BrightCyan
  | BrightWhite
  | ANSI256 (code : Nat)
deriving DecidableEq, Repr

/-- ANSI escape code of a foreground color (`ANSIForegroundColor::code`). -/
def ANSIForegroundColor.code : ANSIForegroundColor → Nat
  | ANSIForegroundColor.Black => 30
  | ANSIForegroundColor.Red => 31
  | ANSIForegroundColor.Green => 32
  | ANSIForegroundColor.Yellow => 33
  | ANSIForegroundColor.Blue => 34
  | ANSIForegroundColor.Magenta => 35
  | ANSIForegroundColor.Cyan => 36
  | ANSIForegroundColor.White => 37
  | ANSIForegroundColor.BrightBlack => 90
  | ANSIForegroundColor.BrightRed => 91
  | ANSIForegroundColor.BrightGreen => 92
  | ANSIForegroundColor.BrightYellow => 93
  | ANSIForegroundColor.BrightBlue => 94
  | ANSIForegroundColor.BrightMagenta => 95
  | ANSIForegroundColor.BrightCyan => 96
  | ANSIForegroundColor.BrightWhite => 97
  | ANSIForegroundColor.ANSI256 _ => 38

/-- Plain lookup from a primary code (`ANSIForegroundColor::from`). -/
def ANSIForegroundColor.fromCode : Nat → Option ANSIForegroundColor
  | 30 => some ANSIForegroundColor.Black
  | 31 => some ANSIForegroundColor.Red
  | 32 => some ANSIForegroundColor.Green
  | 33 => some ANSIForegroundColor.Yellow
  | 34 => some ANSIForegroundColor.Blue
  | 35 => some ANSIForegroundColor.Magenta
  | 36 => some ANSIForegroundColor.Cyan
  | 37 => some ANSIForegroundColor.White
  | 90 => some ANSIForegroundColor.BrightBlack
  | 91 => some ANSIForegroundColor.BrightRed
  | 92 => some ANSIForegroundColor.BrightGreen
  | 93 => some ANSIForegroundColor.BrightYellow
  | 94 => some ANSIForegroundColor.BrightBlue
  | 95 => some ANSIForegroundColor.BrightMagenta
  | 96 => some ANSIForegroundColor.BrightCyan
  | 97 => some ANSIForegroundColor.BrightWhite
  | _ => none

/-- Equality of foreground colors is code equality (`impl PartialEq`). -/
def ANSIForegroundColor.beq (a b : ANSIForegroundColor) : Bool :=
  a.code == b.code

/-- Background colors (`ANSIBackgroundColor` in src/src/enums/ansi_background.rs). -/
inductive ANSIBackgroundColor where
  | Black
  | Red
  | Green
  | Yellow
  | Blue
  | Magenta
  | Cyan
  | White
  | BrightBlack
  | BrightRed
  | BrightGreen
  | BrightYellow
  | BrightBlue
  | BrightMagenta
  | BrightCyan
  | BrightWhite
  | ANSI256 (code : Nat)
deriving DecidableEq, Repr

/-- ANSI escape code of a background color (`ANSIBackgroundColor::code`). -/
def ANSIBackgroundColor.code : ANSIBackgroundColor → Nat
  | ANSIBackgroundColor.Black => 40
  | ANSIBackgroundColor.Red => 41
  | ANSIBackgroundColor.Green => 42
  | ANSIBackgroundColor.Yellow => 43
  | ANSIBackgroundColor.Blue => 44
  | ANSIBackgroundColor.Magenta => 45
  | ANSIBackgroundColor.Cyan => 46
  | ANSIBackgroundColor.White => 47
  | ANSIBackgroundColor.BrightBlack => 100
  | ANSIBackgroundColor.BrightRed => 101
  | ANSIBackgroundColor.BrightGreen => 102
  | ANSIBackgroundColor.BrightYellow => 103
  | ANSIBackgroundColor.BrightBlue => 104
  | ANSIBackgroundColor.BrightMagenta => 105
  | ANSIBackgroundColor.BrightCyan => 106
  | ANSIBackgroundColor.BrightWhite => 107
  | ANSIBackgroundColor.ANSI256 _ => 48

/-- Plain lookup from a primary code (`ANSIBackgroundColor::from`). -/
def ANSIBackgroundColor.fromCode : Nat → Option ANSIBackgroundColor
  | 40 => some ANSIBackgroundColor.Black
  | 41 => some ANSIBackgroundColor.Red
  | 42 => some ANSIBackgroundColor.Green
  | 43 => some ANSIBackgroundColor.Yellow
  | 44 => some ANSIBackgroundColor.Blue
  | 45 => some ANSIBackgroundColor.Magenta
  | 46 => some ANSIBackgroundColor.Cyan
  | 47 => some ANSIBackgroundColor.White
  | 100 => some ANSIBackgroundColor.BrightBlack
  | 101 => some ANSIBackgroundColor.BrightRed
  | 102 => some ANSIBackgroundColor.BrightGreen
  | 103 => some ANSIBackgroundColor.BrightYellow
  | 104 => some ANSIBackgroundColor.BrightBlue
  | 105 => some ANSIBackgroundColor.BrightMagenta
  | 106 => some ANSIBackgroundColor.BrightCyan
  | 107 => some ANSIBackgroundColor.BrightWhite
  | _ => none

/-- Equality of background colors is code equality (`impl PartialEq`). -/
def ANSIBackgroundColor.beq (a b : ANSIBackgroundColor) : Bool :=
  a.code == b.code

/-- Style value: raw code list plus the derived command string
(`struct TerminalStyle` in src/src/terminal_style.rs). -/
structure TerminalStyle where
  codes : List Nat
  command : String
deriving DecidableEq, Repr

/-- Serialization of a code list (`TerminalStyle::make_command`): ESC, a
bracket, the decimal codes joined by semicolons, then the letter m. -/
def TerminalStyle.make_command (codes : List Nat) : String :=
  let code_strings : List String := codes.map (fun c => toString c)
  let code := String.intercalate ";" code_strings
  "\x1B[" ++ code ++ "m"

/-- Raw constructor (`TerminalStyle::from`; `from` is a Lean keyword). -/
def TerminalStyle.fromCodes (codes : List Nat) : TerminalStyle :=
  { codes := codes, command := TerminalStyle.make_command codes }

/-- Structured constructor (`TerminalStyle::new`): effect codes in order,
then the foreground code with its palette pair when indexed, then the
background likewise. -/
def TerminalStyle.new (effects : List SGREffect)
    (foreground : Option ANSIForegroundColor)
    (background : Option ANSIBackgroundColor) : TerminalStyle :=
  let codes := effects.map SGREffect.code
  let codes := match foreground with
    | some f =>
      (codes ++ [f.code]) ++
        (match f with
          | ANSIForegroundColor.ANSI256 n => [5, n]
          | _ => [])
    | none => codes
  let codes := match background with
    | some b =>
      (codes ++ [b.code]) ++
        (match b with
          | ANSIBackgroundColor.ANSI256 n => [5, n]
          | _ => [])
    | none => codes
  TerminalStyle.fromCodes codes

/-- Canonical empty style (`TerminalStyle::new_empty`). -/
def TerminalStyle.new_empty : TerminalStyle :=
  TerminalStyle.new [SGREffect.Normal] none none

/-- Wrapping (`TerminalStyle::wrap`): the style command, the text, then the
command of the canonical empty style. -/
def TerminalStyle.wrap (s : TerminalStyle) (text : String) : String :=
  s.command ++ text ++ TerminalStyle.new_empty.command

/-- Decoded effect list (`TerminalStyle::styles`): every raw code mapped
through the effect decoder. -/
def TerminalStyle.styles (s : TerminalStyle) : List SGREffect :=
  s.codes.map SGREffect.fromCode

/-- Loop body shared by the two color lookups of `TerminalStyle`: when the
plain lookup accepts the current code, keep its decode, otherwise keep the
accumulator. -/
def lastDecodeStep {α : Type} (f : Nat → Option α) (acc : Option α) (c : Nat) : Option α :=
  match f c with
  | some x => some x
  | none => acc

/-- Foreground lookup (`TerminalStyle::foreground`): scan the codes in
order, keeping the decode of the latest code the plain lookup accepts. -/
def TerminalStyle.foreground (s : TerminalStyle) : Option ANSIForegroundColor :=
  s.codes.foldl (lastDecodeStep ANSIForegroundColor.fromCode) none

/-- Background lookup (`TerminalStyle::background`). -/
def TerminalStyle.background (s : TerminalStyle) : Option ANSIBackgroundColor :=
  s.codes.foldl (lastDecodeStep ANSIBackgroundColor.fromCode) none

/-- Equality of styles is equality of the command strings
(`impl PartialEq for TerminalStyle`). -/
def TerminalStyle.beq (a b : TerminalStyle) : Bool :=
  a.command == b.command

/-- Styled text value (`struct StyledTerminalText` in
src/src/styled_terminal_text.rs). -/
structure StyledTerminalText where
  text : String
  style : TerminalStyle
  output : Option String
deriving DecidableEq, Repr

/-- Cache refresh (`StyledTerminalText::update_output`). -/
def StyledTerminalText.update_output (s : StyledTerminalText) : StyledTerminalText :=
  { s with output := some (s.style.wrap s.text) }

/-- Constructor (`StyledTerminalText::new`): builds with an absent cache,
then eagerly refreshes it. -/
def StyledTerminalText.new (text : String) (style : TerminalStyle) : StyledTerminalText :=
  StyledTerminalText.update_output { text := text, style := style, output := none }

/-- Read accessor (`StyledTerminalText::output`): the cached string when
present, the bare text otherwise. -/
def StyledTerminalText.outputText (s : StyledTerminalText) : String :=
  match s.output with
  | some o => o
  | none => s.text

/-- Text setter (`StyledTerminalText::change_text_to`): returns the
previous text together with the updated value. -/
def StyledTerminalText.change_text_to (s : StyledTerminalText) (new_text : String) :
    String × StyledTerminalText :=
  (s.text, StyledTerminalText.update_output { s with text := new_text })

/-- Style setter (`StyledTerminalText::change_style_to`): returns the
previous style together with the updated value. -/
def StyledTerminalText.change_style_to (s : StyledTerminalText) (new_style : TerminalStyle) :
    TerminalStyle × StyledTerminalText :=
  (s.style, StyledTerminalText.update_output { s with style := new_style })

/-- One externally visible mutation of a `StyledTerminalText`. -/
inductive StyledOp where
  | changeText (t : String)
  | changeStyle (st : TerminalStyle)

/-- State reached after one mutation. -/
def StyledTerminalText.applyOp (s : StyledTerminalText) : StyledOp → StyledTerminalText
  | StyledOp.changeText t => (s.change_text_to t).2
  | StyledOp.changeStyle st => (s.change_style_to st).2

/-- State reached after a sequence of mutations. -/
def StyledTerminalText.applyOps (s : StyledTerminalText) (ops : List StyledOp) :
    StyledTerminalText :=
  ops.foldl StyledTerminalText.applyOp s

/-- Cache consistency predicate for a styled text value. -/
def StyledTerminalText.cacheConsistent (s : StyledTerminalText) : Prop :=
  s.output = some (s.style.wrap s.text)

/-- C1. The claim asserts the empty code list and the list holding only 0
serialize identically to ESC, bracket, 0, m; the code serializes the empty
list without the 0, so the conjunction is false. -/
theorem C1_counterexample :
    ¬((TerminalStyle.fromCodes []).command = "\x1B[0m" ∧
      (TerminalStyle.fromCodes [0]).command = "\x1B[0m") := by
  decide

/-- C1 amended: the single-code list 0 renders as ESC, bracket, 0, m, while
the truly empty code list renders as ESC, bracket, m, with no code between:
the two canonical-empty forms do not serialize identically. -/
theorem C1_amended_rendering :
    (TerminalStyle.fromCodes []).command = "\x1B[m" ∧
    (TerminalStyle.fromCodes [0]).command = "\x1B[0m" ∧
    (TerminalStyle.fromCodes []).command ≠ (TerminalStyle.fromCodes [0]).command := by
  refine ⟨rfl, rfl, ?_⟩
  decide

/-- C2. For every style and every text, wrapping equals the style command,
then the text, then the reset sequence ESC, bracket, 0, m. -/
theorem C2_wrap_shape :
    ∀ (s : TerminalStyle) (t : String),
      s.wrap t = s.command ++ t ++ "\x1B[0m" := by
  intro s t
  show s.command ++ t ++ TerminalStyle.new_empty.command = _
  rw [show TerminalStyle.new_empty.command = "\x1B[0m" from rfl]

/-- C7. Two styles are equal exactly when their rendered command strings
are equal; for raw-built styles this means their code lists serialize to
the same string. The concrete pair shows two differently constructed
styles comparing equal through their common command. -/
theorem C7_style_eq_command :
    (∀ (c1 c2 : List Nat),
      TerminalStyle.beq (TerminalStyle.fromCodes c1) (TerminalStyle.fromCodes c2) = true ↔
        TerminalStyle.make_command c1 = TerminalStyle.make_command c2) ∧
    TerminalStyle.beq (TerminalStyle.fromCodes [0, 33, 41])
      (TerminalStyle.new [SGREffect.Normal] (some ANSIForegroundColor.Yellow)
        (some ANSIBackgroundColor.Red)) = true := by
  constructor
  · intro c1 c2
    simp [TerminalStyle.beq, TerminalStyle.fromCodes]
  · decide

/-- C8. In each attribute family, equality holds exactly when the numeric
codes agree; in particular any two palette-indexed colors are equal, both
carrying primary code 38 (foreground) or 48 (background). -/
theorem C8_attr_eq_code :
    (∀ a b : ANSIForegroundColor, ANSIForegroundColor.beq a b = true ↔ a.code = b.code) ∧
    (∀ a b : ANSIBackgroundColor, ANSIBackgroundColor.beq a b = true ↔ a.code = b.code) ∧
    (∀ a b : SGREffect, SGREffect.beq a b = true ↔ a.code = b.code) ∧
    (∀ x y : Nat,
      ANSIForegroundColor.beq (ANSIForegroundColor.ANSI256 x) (ANSIForegroundColor.ANSI256 y)
        = true) ∧
    (∀ x y : Nat,
      ANSIBackgroundColor.beq (ANSIBackgroundColor.ANSI256 x) (ANSIBackgroundColor.ANSI256 y)
        = true) := by
  refine ⟨?_, ?_, ?_, ?_, ?_⟩
  · intro a b; simp [ANSIForegroundColor.beq]
  · intro a b; simp [ANSIBackgroundColor.beq]
  · intro a b; simp [SGREffect.beq]
  · intro x y; rfl
  · intro x y; rfl

/-- C9. Decoding effects maps every raw code of the style through the
effect decoder in order, so the result has the same length as the code
list; a style built with a bright-yellow foreground yields the escape-hatch
entry for code 93 beside the bold effect. -/
theorem C9_styles_decode :
    (∀ codes : List Nat,
      (TerminalStyle.fromCodes codes).styles = codes.map SGREffect.fromCode ∧
      ((TerminalStyle.fromCodes codes).styles).length = codes.length) ∧
    (TerminalStyle.new [SGREffect.Bold] (some ANSIForegroundColor.BrightYellow) none).styles
      = [SGREffect.Bold, SGREffect.ByCode 93] := by
  refine ⟨fun codes => ⟨rfl, ?_⟩, rfl⟩
  simp [TerminalStyle.styles, TerminalStyle.fromCodes]

/-- Every single mutation leaves the cache equal to the wrap of the
current text and style. -/
theorem cacheConsistent_applyOp (s : StyledTerminalText) (op : StyledOp) :
    (s.applyOp op).cacheConsistent := by
  cases op <;> rfl

/-- A consistent cache stays consistent across any mutation sequence. -/
theorem cacheConsistent_applyOps (s : StyledTerminalText) (ops : List StyledOp)
    (h : s.cacheConsistent) : (s.applyOps ops).cacheConsistent := by
  induction ops generalizing s with
  | nil => exact h
  | cons op t ih => exact ih _ (cacheConsistent_applyOp s op)

/-- C3. After construction and any sequence of text and style mutations,
the observable output of a styled text equals the wrap of its current
style around its current text: the cache is never stale or absent. -/
theorem C3_output_consistent :
    ∀ (text : String) (style : TerminalStyle) (ops : List StyledOp),
      (StyledTerminalText.applyOps (StyledTerminalText.new text style) ops).outputText
        = ((StyledTerminalText.applyOps (StyledTerminalText.new text style) ops).style).wrap
            ((StyledTerminalText.applyOps (StyledTerminalText.new text style) ops).text) := by
  intro text style ops
  have h := cacheConsistent_applyOps (StyledTerminalText.new text style) ops rfl
  simp only [StyledTerminalText.cacheConsistent] at h
  simp [StyledTerminalText.outputText, h]

/-- C4. The structured constructor emits each effect code in the given
order, then the foreground code with its palette pair exactly for the
indexed variant, then the background likewise; the two concrete builds
render the expected composite commands. -/
theorem C4_new_codes :
    (∀ (effects : List SGREffect) (fg : Option ANSIForegroundColor)
        (bg : Option ANSIBackgroundColor),
      (TerminalStyle.new effects fg bg).codes
        = effects.map SGREffect.code
          ++ (match fg with
              | none => []
              | some f =>
                f.code :: (match f with
                  | ANSIForegroundColor.ANSI256 n => [5, n]
                  | _ => []))
          ++ (match bg with
              | none => []
              | some b =>
                b.code :: (match b with
                  | ANSIBackgroundColor.ANSI256 n => [5, n]
                  | _ => []))) ∧
    (TerminalStyle.new [SGREffect.Bold, SGREffect.Italic, SGREffect.SlowBlink]
        (some ANSIForegroundColor.Blue) none).command = "\x1B[1;3;5;34m" ∧
    (TerminalStyle.new [] (some (ANSIForegroundColor.ANSI256 183)) none).command
      = "\x1B[38;5;183m" := by
  refine ⟨?_, rfl, rfl⟩
  intro effects fg bg
  cases fg with
  | none =>
    cases bg with
    | none => simp [TerminalStyle.new, TerminalStyle.fromCodes]
    | some b => cases b <;> simp [TerminalStyle.new, TerminalStyle.fromCodes]
  | some f =>
    cases bg with
    | none => cases f <;> simp [TerminalStyle.new, TerminalStyle.fromCodes]
    | some b => cases f <;> cases b <;> simp [TerminalStyle.new, TerminalStyle.fromCodes]

/-- Appending one element to a scan: the last match of the longer list is
the new element's decode when it matches, the old last match otherwise. -/
theorem findSome_append_single {α : Type} (f : Nat → Option α) (l : List Nat) (c : Nat) :
    (l ++ [c]).findSome? f =
      match l.findSome? f with
      | some x => some x
      | none => f c := by
  induction l with
  | nil =>
    rw [List.nil_append]
    cases h : f c <;> simp [List.findSome?, h]
  | cons a t ih =>
    rw [List.cons_append]
    cases h : f a with
    | some x => simp [List.findSome?, h]
    | none => simp [List.findSome?, h, ih]

/-- The overwrite fold used by the color lookups computes the first match
of the reversed list, falling back to the initial accumulator. -/
theorem foldl_last_match {α : Type} (f : Nat → Option α) :
    ∀ (l : List Nat) (acc : Option α),
      l.foldl (lastDecodeStep f) acc =
        match l.reverse.findSome? f with
        | some x => some x
        | none => acc := by
  intro l
  induction l with
  | nil => intro acc; rfl
  | cons c t ih =>
    intro acc
    rw [List.foldl_cons, ih, List.reverse_cons, findSome_append_single]
    cases h : t.reverse.findSome? f with
    | some x => rfl
    | none => cases h2 : f c <;> simp [lastDecodeStep, h2]

/-- C5. The color lookups return the decode of the last code the family's
plain lookup accepts (the first match of the reversed list), and none when
no code matches; on the list 33, 41 the decoded foreground is yellow. -/
theorem C5_last_match_wins :
    (∀ codes : List Nat,
      (TerminalStyle.fromCodes codes).foreground
          = codes.reverse.findSome? ANSIForegroundColor.fromCode ∧
      (TerminalStyle.fromCodes codes).background
          = codes.reverse.findSome? ANSIBackgroundColor.fromCode) ∧
    (TerminalStyle.fromCodes [33, 41]).foreground = some ANSIForegroundColor.Yellow := by
  refine ⟨fun codes => ⟨?_, ?_⟩, by decide⟩
  · show List.foldl (lastDecodeStep ANSIForegroundColor.fromCode) none codes = _
    rw [foldl_last_match]
    cases h : codes.reverse.findSome? ANSIForegroundColor.fromCode <;> rfl
  · show List.foldl (lastDecodeStep ANSIBackgroundColor.fromCode) none codes = _
    rw [foldl_last_match]
    cases h : codes.reverse.findSome? ANSIBackgroundColor.fromCode <;> rfl

set_option maxRecDepth 10000 in
set_option synthInstance.maxSize 1000 in
/-- C6. Over the whole byte domain: decoding a named code and re-encoding
it is the identity in each family, the color lookups reject every code
outside their named ranges (the palette primaries 38 and 48 included), and
the effect decoder round-trips every named effect code. -/
theorem C6_roundtrip_and_none :
    ∀ c : Nat, c < 256 →
      (((30 ≤ c ∧ c ≤ 37) ∨ (90 ≤ c ∧ c ≤ 97)) →
        Option.map ANSIForegroundColor.code (ANSIForegroundColor.fromCode c) = some c) ∧
      (¬((30 ≤ c ∧ c ≤ 37) ∨ (90 ≤ c ∧ c ≤ 97)) →
        ANSIForegroundColor.fromCode c = none) ∧
      (((40 ≤ c ∧ c ≤ 47) ∨ (100 ≤ c ∧ c ≤ 107)) →
        Option.map ANSIBackgroundColor.code (ANSIBackgroundColor.fromCode c) = some c) ∧
      (¬((40 ≤ c ∧ c ≤ 47) ∨ (100 ≤ c ∧ c ≤ 107)) →
        ANSIBackgroundColor.fromCode c = none) ∧
      ((c = 0 ∨ c = 1 ∨ c = 2 ∨ c = 3 ∨ c = 4 ∨ c = 5 ∨ c = 6 ∨ c = 9) →
        SGREffect.code (SGREffect.fromCode c) = c) := by
  decide

/-- C6 witness: the palette primary 38 decodes to nothing, and the named
code 33 round-trips through the foreground family. -/
theorem C6_roundtrip_witness :
    ANSIForegroundColor.fromCode 38 = none ∧
    Option.map ANSIForegroundColor.code (ANSIForegroundColor.fromCode 33) = some 33 :=
  ⟨(C6_roundtrip_and_none 38 (by decide)).2.1 (by decide),
   (C6_roundtrip_and_none 33 (by decide)).1 (by decide)⟩

/-- C10. A style built with no effects and only a palette-indexed color
whose payload lies in a named range decodes back to the named color with
that payload code: the payload byte in the emitted list matches the plain
lookup. -/
theorem C10_palette_payload :
    (∀ i : Nat, (30 ≤ i ∧ i ≤ 37) ∨ (90 ≤ i ∧ i ≤ 97) →
      (TerminalStyle.new [] (some (ANSIForegroundColor.ANSI256 i)) none).foreground
          = ANSIForegroundColor.fromCode i ∧
      Option.map ANSIForegroundColor.code
          ((TerminalStyle.new [] (some (ANSIForegroundColor.ANSI256 i)) none).foreground)
        = some i) ∧
    (∀ i : Nat, (40 ≤ i ∧ i ≤ 47) ∨ (100 ≤ i ∧ i ≤ 107) →
      (TerminalStyle.new [] none (some (ANSIBackgroundColor.ANSI256 i))).background
          = ANSIBackgroundColor.fromCode i ∧
      Option.map ANSIBackgroundColor.code
          ((TerminalStyle.new [] none (some (ANSIBackgroundColor.ANSI256 i))).background)
        = some i) := by
  constructor
  · intro i h
    rcases h with ⟨h1, h2⟩ | ⟨h1, h2⟩ <;> interval_cases i <;> exact ⟨rfl, rfl⟩
  · intro i h
    rcases h with ⟨h1, h2⟩ | ⟨h1, h2⟩ <;> interval_cases i <;> exact ⟨rfl, rfl⟩

/-- C10 witness: payload 33 decodes to the yellow foreground and payload
41 to the red background. -/
theorem C10_palette_payload_witness :
    (TerminalStyle.new [] (some (ANSIForegroundColor.ANSI256 33)) none).foreground
        = some ANSIForegroundColor.Yellow ∧
    (TerminalStyle.new [] none (some (ANSIBackgroundColor.ANSI256 41))).background
        = some ANSIBackgroundColor.Red := by
  constructor
  · have h := (C10_palette_payload.1 33 (Or.inl ⟨by decide, by decide⟩)).1
    rw [h]; decide
  · have h := (C10_palette_payload.2 41 (Or.inl ⟨by decide, by decide⟩)).1
    rw [h]; decide

end TerminalTextStyler
